import Mathlib

/-!
# gobs/logger: a levelled logger

A shallow embedding of `logger.go` and of the four calls of `logger_test.go`.

Modelling decisions.

* `LogLevel` is Go's `int`; it is embedded as `Int`.  The only arithmetic the
  program does on a level is `1 + ilevel` with `0 ≤ ilevel ≤ 3`, so no
  operation can overflow and the unbounded integers agree with the machine
  integers on every machine value.
* A Go `string` is embedded as a `String`.  The program inspects a string in
  one place only (`GetLogger`): it tests `len(prefix) > 0`, which only
  separates the empty string from the others, and whether the string ends in
  the one-byte character `" "`.
* The system logger `*log.Logger` is embedded as a record of the prefix and
  flags it was created with and of the messages handed to it so far
  (`lines`, oldest first).  The time stamp and the prefix that the system
  logger puts in front of each message when it writes it are not part of the
  message and are not modelled.
* `fmt.Sprintf` belongs to the standard library; it is a parameter `Sprintf`
  of every operation that formats a message.
* A call either returns, panics (index out of range) or ends the process
  (`os.Exit`); `Outcome` records which, with the state reached.
-/

namespace log

/-- The flag value `log.LstdFlags` (`Ldate | Ltime`). -/
def LstdFlags : Int := 3

/-- The system logger: what `log.New` stores, and the messages handed to it. -/
structure Logger where
  /-- the text put in front of every line (`log.Logger.prefix`) -/
  pfx : String
  /-- the formatting flags -/
  flag : Int
  /-- the messages handed to the logger so far, oldest first -/
  lines : List String
  deriving DecidableEq, Repr

/-- The constructor `log.New(os.Stderr, prefix, flag)`: nothing written yet. -/
def New (pfx : String) (flag : Int) : Logger :=
  { pfx := pfx, flag := flag, lines := [] }

/-- The method `(*log.Logger).Printf(format, v...)`: it formats the message
with `Sprintf` and hands that one message to the output. -/
def Logger.Printf {α : Type} (Sprintf : String → List α → String)
    (l : Logger) (format : String) (v : List α) : Logger :=
  { l with lines := l.lines ++ [Sprintf format v] }

end log

namespace strings

/-- The function `strings.HasSuffix(s, suffix)`:
`len(s) >= len(suffix) && s[len(s)-len(suffix):] == suffix`. -/
def HasSuffix (s suffix : String) : Bool :=
  decide (s.length ≥ suffix.length) &&
    (s.toList.drop (s.length - suffix.length) == suffix.toList)

end strings

namespace logger

/-- The type `LogLevel` (`type LogLevel int`). -/
abbrev LogLevel := Int

def ERROR : LogLevel := -1
def WARNING : LogLevel := 0
def INFO : LogLevel := 1
def DEBUG : LogLevel := 2

/-- The package-level table `labels`. -/
def labels : List String :=
  [ "ERROR   ",
    "WARNING ",
    "INFO    ",
    "DEBUG   " ]

/-- How a call ends. -/
inductive Outcome (σ : Type) where
  /-- the call returns, leaving the state `s` -/
  | returned (s : σ) : Outcome σ
  /-- the call panics with "index out of range [index] with length len",
  in the state `s` -/
  | panicked (index len : Int) (s : σ) : Outcome σ
  /-- the process ends with exit status `code`, in the state `s` -/
  | exited (code : Int) (s : σ) : Outcome σ
  deriving DecidableEq, Repr

/-- Sequencing of two calls: the second runs only if the first returned. -/
def Outcome.andThen {σ : Type} (o : Outcome σ) (k : σ → Outcome σ) : Outcome σ :=
  match o with
  | .returned s => k s
  | .panicked i n s => .panicked i n s
  | .exited c s => .exited c s

/-- A slice index expression `xs[i]` with an `int` index: `none` stands for the
run-time panic "index out of range". -/
def index (xs : List String) (i : Int) : Option String :=
  if 0 ≤ i ∧ i < (xs.length : Int) then xs[i.toNat]? else none

set_option linter.dupNamespace false in
/-- The struct `Logger`: the current level and the system logger. -/
structure Logger where
  /-- current log level -/
  Level : LogLevel
  /-- system logger -/
  Logger : log.Logger
  deriving DecidableEq, Repr

/-- The function `GetLogger(level, prefix)`. -/
def GetLogger (level : LogLevel) (pfx : String) : Logger :=
  let pfx := if pfx.length > 0 ∧ !strings.HasSuffix pfx " " then pfx ++ " " else pfx
  { Level := level, Logger := log.New pfx log.LstdFlags }

/-- The method `SetLevel(level)`. -/
def Logger.SetLevel (l : logger.Logger) (level : LogLevel) : logger.Logger :=
  { l with Level := level }

/-- The method `Log(level, fmt, args...)`. -/
def Logger.Log {α : Type} (Sprintf : String → List α → String)
    (l : logger.Logger) (level : LogLevel) (fmt : String) (args : List α) :
    Outcome logger.Logger :=
  if level < 0 then
    match index labels (1 + ERROR) with
    | some lab => .returned { l with Logger := l.Logger.Printf Sprintf (lab ++ fmt) args }
    | none => .panicked (1 + ERROR) labels.length l
  else if l.Level ≥ level then
    let ilevel : Int := level
    let ilevel : Int := if ilevel > (labels.length : Int) - 1 then (labels.length : Int) - 1 else ilevel
    match index labels (1 + ilevel) with
    | some lab => .returned { l with Logger := l.Logger.Printf Sprintf (lab ++ fmt) args }
    | none => .panicked (1 + ilevel) labels.length l
  else
    .returned l

/-- The method `Debug(fmt, args...)`. -/
def Logger.Debug {α : Type} (Sprintf : String → List α → String)
    (l : logger.Logger) (fmt : String) (args : List α) : Outcome logger.Logger :=
  l.Log Sprintf DEBUG fmt args

/-- The method `Info(fmt, args...)`. -/
def Logger.Info {α : Type} (Sprintf : String → List α → String)
    (l : logger.Logger) (fmt : String) (args : List α) : Outcome logger.Logger :=
  l.Log Sprintf INFO fmt args

/-- The method `Warning(fmt, args...)`. -/
def Logger.Warning {α : Type} (Sprintf : String → List α → String)
    (l : logger.Logger) (fmt : String) (args : List α) : Outcome logger.Logger :=
  l.Log Sprintf WARNING fmt args

/-- The method `Error(fmt, args...)`. -/
def Logger.Error {α : Type} (Sprintf : String → List α → String)
    (l : logger.Logger) (fmt : String) (args : List α) : Outcome logger.Logger :=
  l.Log Sprintf ERROR fmt args

/-- The method `Fatal(fmt, args...)`: `Log(ERROR, ...)`, then `os.Exit(1)`. -/
def Logger.Fatal {α : Type} (Sprintf : String → List α → String)
    (l : logger.Logger) (fmt : String) (args : List α) : Outcome logger.Logger :=
  (l.Log Sprintf ERROR fmt args).andThen fun l => .exited 1 l

/-- The body of `TestLogger`: a logger at INFO with the prefix "LOGGER", then
four calls of `Log`. -/
def TestLogger {α : Type} (Sprintf : String → List α → String) : Outcome Logger :=
  let l := GetLogger INFO "LOGGER"
  (((l.Log Sprintf INFO "info" []).andThen
    fun l => l.Log Sprintf WARNING "warning" []).andThen
    fun l => l.Log Sprintf ERROR "error" []).andThen
    fun l => l.Log Sprintf DEBUG "debug" []

/-! ### Vocabulary of the specification -/

/-- The logger `l` after one more message `line` has been handed to its system
logger, nothing else changed. -/
def Logger.withLine (l : logger.Logger) (line : String) : logger.Logger :=
  { Level := l.Level,
    Logger := { pfx := l.Logger.pfx, flag := l.Logger.flag, lines := l.Logger.lines ++ [line] } }

/-- A formatter copies literal text: a piece of the format in front that
holds no `%` comes out unchanged, followed by the formatting of the rest. -/
def CopiesLiteral {α : Type} (Sprintf : String → List α → String) : Prop :=
  ∀ (lit fmt : String) (args : List α),
    '%' ∉ lit.toList → Sprintf (lit ++ fmt) args = lit ++ Sprintf fmt args

/-- The last character of a string, if any. -/
def lastChar (s : String) : Option Char := s.toList.getLast?

/-- The character before the last one, if any. -/
def beforeLastChar (s : String) : Option Char := s.toList.dropLast.getLast?

/-- A string ends with exactly one space: its last character is a space and
the character before it, if any, is not. -/
def EndsWithOneSpace (s : String) : Prop :=
  lastChar s = some ' ' ∧ beforeLastChar s ≠ some ' '

/-- The outcome `o` of a call made on the logger `l` is a return in the state
`l` with exactly one more line, whichever line it is, handed to the system
logger.  The line is not constrained; where the text matters the theorems
give the outcome itself. -/
def Logs (l : logger.Logger) (o : Outcome logger.Logger) : Prop :=
  ∃ line : String, o = .returned (l.withLine line)

/-! ### A concrete formatter

A small executable formatter with which the abstract `Sprintf` is
instantiated on concrete inputs: `%%` prints `%`, any other verb prints the
next argument (arguments are given already rendered), a verb without an
argument prints `%!v(MISSING)` for the verb `v`, other text is copied. -/

/-- The formatter, over lists of characters. -/
def renderVerbs : List Char → List String → List Char
  | [], _ => []
  | [c], _ => [c]
  | c :: d :: cs, as =>
    if c = '%' then
      if d = '%' then '%' :: renderVerbs cs as
      else
        match as with
        | a :: rest => a.toList ++ renderVerbs cs rest
        | [] => '%' :: '!' :: d :: ("(MISSING)".toList ++ renderVerbs cs [])
    else c :: renderVerbs (d :: cs) as

/-- The formatter, over strings. -/
def sprintfVerbs (format : String) (args : List String) : String :=
  String.mk (renderVerbs format.toList args)

/-! ### The four paths of `Log` -/

theorem Log_of_neg {α : Type} (Sprintf : String → List α → String)
    (l : Logger) (level : LogLevel) (fmt : String) (args : List α) (h : level < 0) :
    l.Log Sprintf level fmt args
      = .returned (l.withLine (Sprintf ("ERROR   " ++ fmt) args)) := by
  simp [Logger.Log, h, index, labels, ERROR, Logger.withLine, log.Logger.Printf]

theorem Log_of_lt {α : Type} (Sprintf : String → List α → String)
    (l : Logger) (level : LogLevel) (fmt : String) (args : List α)
    (h0 : 0 ≤ level) (h : l.Level < level) :
    l.Log Sprintf level fmt args = .returned l := by
  have h1 : ¬ level < 0 := not_lt.mpr h0
  have h2 : ¬ level ≤ l.Level := not_le.mpr h
  simp [Logger.Log, h1, h2]

theorem Log_WARNING {α : Type} (Sprintf : String → List α → String)
    (l : Logger) (fmt : String) (args : List α) (h : l.Level ≥ WARNING) :
    l.Log Sprintf WARNING fmt args
      = .returned (l.withLine (Sprintf ("WARNING " ++ fmt) args)) := by
  simp only [WARNING] at h
  simp [Logger.Log, h, index, labels, WARNING, Logger.withLine, log.Logger.Printf]

theorem Log_INFO {α : Type} (Sprintf : String → List α → String)
    (l : Logger) (fmt : String) (args : List α) (h : l.Level ≥ INFO) :
    l.Log Sprintf INFO fmt args
      = .returned (l.withLine (Sprintf ("INFO    " ++ fmt) args)) := by
  simp only [INFO] at h
  simp [Logger.Log, h, index, labels, INFO, Logger.withLine, log.Logger.Printf]

theorem Log_DEBUG {α : Type} (Sprintf : String → List α → String)
    (l : Logger) (fmt : String) (args : List α) (h : l.Level ≥ DEBUG) :
    l.Log Sprintf DEBUG fmt args
      = .returned (l.withLine (Sprintf ("DEBUG   " ++ fmt) args)) := by
  simp only [DEBUG] at h
  simp [Logger.Log, h, index, labels, DEBUG, Logger.withLine, log.Logger.Printf]

/-- Above `DEBUG` the index is `1 + 3 = 4` whenever the message passes the filter:
the clamp stops at `len(labels) - 1`, one more than the last level that has a label. -/
theorem Log_of_gt_DEBUG {α : Type} (Sprintf : String → List α → String)
    (l : Logger) (level : LogLevel) (fmt : String) (args : List α)
    (hlevel : level > DEBUG) (h : l.Level ≥ level) :
    l.Log Sprintf level fmt args = .panicked 4 4 l := by
  simp only [DEBUG] at hlevel
  have h1 : ¬ level < 0 := by linarith
  by_cases h3 : level > 3
  · simp [Logger.Log, h1, h, index, labels, h3]
  · have h4 : level = 3 := le_antisymm (not_lt.mp h3) hlevel
    subst h4
    simp [Logger.Log, h, index, labels]

theorem withLine_ne (l : Logger) (line : String) : l.withLine line ≠ l := by
  intro h
  have hlen := congrArg (fun x => x.Logger.lines.length) h
  simp [Logger.withLine] at hlen

/-- On the levels that have a label the filter is exact. -/
theorem Log_logs_iff_of_le_DEBUG {α : Type} (Sprintf : String → List α → String)
    (l : Logger) (level : LogLevel) (fmt : String) (args : List α)
    (h0 : 0 ≤ level) (h2 : level ≤ DEBUG) :
    Logs l (l.Log Sprintf level fmt args) ↔ l.Level ≥ level := by
  constructor
  · intro hlogs
    by_contra hlt
    obtain ⟨line, hline⟩ := hlogs
    rw [Log_of_lt Sprintf l level fmt args h0 (not_le.mp hlt)] at hline
    exact withLine_ne l line (Outcome.returned.inj hline).symm
  · intro hge
    simp only [DEBUG] at h2
    have hcases : level = WARNING ∨ level = INFO ∨ level = DEBUG := by
      simp only [WARNING, INFO, DEBUG]
      rcases lt_or_eq_of_le h0 with h | h
      · rcases lt_or_eq_of_le (show (1 : Int) ≤ level from h) with h1 | h1
        · exact Or.inr (Or.inr (le_antisymm h2 h1))
        · exact Or.inr (Or.inl h1.symm)
      · exact Or.inl h.symm
    rcases hcases with h | h | h
    · subst h; exact ⟨_, Log_WARNING Sprintf l fmt args hge⟩
    · subst h; exact ⟨_, Log_INFO Sprintf l fmt args hge⟩
    · subst h; exact ⟨_, Log_DEBUG Sprintf l fmt args hge⟩

/-! ### The formatter `sprintfVerbs` copies literal text -/

theorem renderVerbs_cons_of_ne (c : Char) (cs : List Char) (as : List String)
    (h : c ≠ '%') : renderVerbs (c :: cs) as = c :: renderVerbs cs as := by
  cases cs with
  | nil => simp [renderVerbs]
  | cons d cs => simp [renderVerbs, h]

theorem renderVerbs_append_literal (lit rest : List Char) (as : List String)
    (h : '%' ∉ lit) : renderVerbs (lit ++ rest) as = lit ++ renderVerbs rest as := by
  induction lit with
  | nil => rfl
  | cons c cs ih =>
    have hc : c ≠ '%' := fun e => h (by simp [e])
    have hcs : '%' ∉ cs := fun e => h (List.mem_cons_of_mem _ e)
    rw [List.cons_append, renderVerbs_cons_of_ne _ _ _ hc, ih hcs, List.cons_append]

theorem sprintfVerbs_copiesLiteral : CopiesLiteral sprintfVerbs := by
  intro lit fmt args h
  apply String.ext
  simp only [sprintfVerbs, String.toList, String.data_append] at *
  exact renderVerbs_append_literal _ _ _ h

/-! ### The prefix stored by `GetLogger` -/

theorem HasSuffix_space_iff (p : String) :
    strings.HasSuffix p " " = true ↔ lastChar p = some ' ' := by
  obtain ⟨xs⟩ := p
  simp only [strings.HasSuffix, lastChar, String.length, String.toList]
  rcases List.eq_nil_or_concat xs with h | ⟨ys, a, h⟩
  · subst h; simp
  · subst h; simp

theorem length_pos_iff (p : String) : p.length > 0 ↔ p ≠ "" := by
  obtain ⟨xs⟩ := p
  cases xs <;> simp [String.length, String.ext_iff]

theorem lastChar_append_space (p : String) : lastChar (p ++ " ") = some ' ' := by
  simp [lastChar, String.toList]

theorem beforeLastChar_append_space (p : String) :
    beforeLastChar (p ++ " ") = lastChar p := by
  simp [lastChar, beforeLastChar, String.toList]

theorem GetLogger_pfx (level : LogLevel) (p : String) :
    (GetLogger level p).Logger.pfx
      = if p ≠ "" ∧ lastChar p ≠ some ' ' then p ++ " " else p := by
  have h1 := length_pos_iff p
  have h2 := HasSuffix_space_iff p
  by_cases hp : p = ""
  · subst hp; rfl
  · by_cases hl : lastChar p = some ' '
    · simp [GetLogger, log.New, hp, hl, h2.mpr hl]
    · have h3 : strings.HasSuffix p " " = false := by
        cases h : strings.HasSuffix p " "
        · rfl
        · exact absurd (h2.mp h) hl
      simp [GetLogger, log.New, hp, hl, h3, h1.mpr hp]

/-! ### The claims -/

/-- C1 (the code departs from it): on a logger whose threshold is 3, `Log(3, ...)`
passes the filter `threshold >= level`, yet no line is handed to the sink: the
call panics with "index out of range [4] with length 4", so it does not log. -/
theorem C1_Log_rank3_on_threshold3_panics :
    (GetLogger 3 "LOGGER").Level ≥ 3 ∧
    (GetLogger 3 "LOGGER").Log sprintfVerbs 3 "custom %v" ["x"]
      = .panicked 4 4 (GetLogger 3 "LOGGER") ∧
    ¬ Logs (GetLogger 3 "LOGGER")
        ((GetLogger 3 "LOGGER").Log sprintfVerbs 3 "custom %v" ["x"]) := by
  have h : (GetLogger 3 "LOGGER").Log sprintfVerbs 3 "custom %v" ["x"]
      = .panicked 4 4 (GetLogger 3 "LOGGER") := by rfl
  refine ⟨by decide, h, ?_⟩
  rintro ⟨line, hline⟩
  rw [h] at hline
  cases hline

/-- C2 (the code departs from it): for every level above `DEBUG` and every
threshold at or above that level, `Log(level, ...)` looks up `labels[4]` in the
table of four labels and panics with index out of range; no line is emitted
and the logger is left as it was. -/
theorem C2_Log_above_DEBUG_index_out_of_range {α : Type}
    (Sprintf : String → List α → String)
    (l : Logger) (level : LogLevel) (fmt : String) (args : List α)
    (hlevel : level > DEBUG) (h : l.Level ≥ level) :
    index labels 4 = none ∧
    l.Log Sprintf level fmt args = .panicked 4 4 l ∧
    ¬ Logs l (l.Log Sprintf level fmt args) := by
  have hp := Log_of_gt_DEBUG Sprintf l level fmt args hlevel h
  refine ⟨by decide, hp, ?_⟩
  rintro ⟨line, hline⟩
  rw [hp] at hline
  cases hline

theorem C2_Log_above_DEBUG_index_out_of_range_witness :
    (7 : LogLevel) > DEBUG ∧ (GetLogger 9 "LOGGER").Level ≥ 7 ∧
    (index labels 4 = none ∧
     (GetLogger 9 "LOGGER").Log sprintfVerbs 7 "custom %v" ["x"]
       = .panicked 4 4 (GetLogger 9 "LOGGER") ∧
     ¬ Logs (GetLogger 9 "LOGGER")
        ((GetLogger 9 "LOGGER").Log sprintfVerbs 7 "custom %v" ["x"])) :=
  ⟨by decide, by decide,
    C2_Log_above_DEBUG_index_out_of_range sprintfVerbs (GetLogger 9 "LOGGER") 7
      "custom %v" ["x"] (by decide) (by decide)⟩

/-- C3: for every threshold and every level below 0, `Log(level, ...)`, and so
`Error(...)`, returns having handed exactly one line to the sink, whatever the
threshold; the line is the formatting of "ERROR   " followed by the format,
which is the label "ERROR   " followed by the formatted message when the
formatter copies literal text. -/
theorem C3_Log_negative_always_emits_ERROR_line {α : Type}
    (Sprintf : String → List α → String)
    (l : Logger) (level : LogLevel) (fmt : String) (args : List α)
    (hlevel : level < 0) :
    l.Log Sprintf level fmt args
      = .returned (l.withLine (Sprintf ("ERROR   " ++ fmt) args)) ∧
    l.Error Sprintf fmt args
      = .returned (l.withLine (Sprintf ("ERROR   " ++ fmt) args)) ∧
    (l.withLine (Sprintf ("ERROR   " ++ fmt) args)).Logger.lines
      = l.Logger.lines ++ [Sprintf ("ERROR   " ++ fmt) args] ∧
    (CopiesLiteral Sprintf →
      Sprintf ("ERROR   " ++ fmt) args = "ERROR   " ++ Sprintf fmt args) :=
  ⟨Log_of_neg Sprintf l level fmt args hlevel,
   Log_of_neg Sprintf l ERROR fmt args (by decide),
   rfl,
   fun hS => hS _ _ _ (by decide)⟩

theorem C3_Log_negative_always_emits_ERROR_line_witness :
    (-5 : LogLevel) < 0 ∧ CopiesLiteral sprintfVerbs ∧
    (GetLogger WARNING "LOGGER").Log sprintfVerbs (-5) "disk %v" ["full"]
      = .returned ((GetLogger WARNING "LOGGER").withLine
          (sprintfVerbs ("ERROR   " ++ "disk %v") ["full"])) ∧
    sprintfVerbs ("ERROR   " ++ "disk %v") ["full"]
      = "ERROR   " ++ sprintfVerbs "disk %v" ["full"] :=
  have h := C3_Log_negative_always_emits_ERROR_line sprintfVerbs
    (GetLogger WARNING "LOGGER") (-5) "disk %v" ["full"] (by decide)
  ⟨by decide, sprintfVerbs_copiesLiteral, h.1, h.2.2.2 sprintfVerbs_copiesLiteral⟩

/-- C4: for each of the levels WARNING, INFO and DEBUG and every threshold at
or above it, `Log(level, ...)` returns (no lookup failure) having handed one
line to the sink: the formatting of that level's own label, 8 characters long,
followed by the format, which is the label immediately followed by the
formatted message when the formatter copies literal text. -/
theorem C4_Log_named_level_uses_own_label {α : Type}
    (Sprintf : String → List α → String)
    (l : Logger) (fmt : String) (args : List α) :
    (l.Level ≥ WARNING →
      l.Log Sprintf WARNING fmt args
        = .returned (l.withLine (Sprintf ("WARNING " ++ fmt) args))) ∧
    (l.Level ≥ INFO →
      l.Log Sprintf INFO fmt args
        = .returned (l.withLine (Sprintf ("INFO    " ++ fmt) args))) ∧
    (l.Level ≥ DEBUG →
      l.Log Sprintf DEBUG fmt args
        = .returned (l.withLine (Sprintf ("DEBUG   " ++ fmt) args))) ∧
    (CopiesLiteral Sprintf →
      Sprintf ("WARNING " ++ fmt) args = "WARNING " ++ Sprintf fmt args ∧
      Sprintf ("INFO    " ++ fmt) args = "INFO    " ++ Sprintf fmt args ∧
      Sprintf ("DEBUG   " ++ fmt) args = "DEBUG   " ++ Sprintf fmt args) ∧
    "WARNING ".length = 8 ∧ "INFO    ".length = 8 ∧ "DEBUG   ".length = 8 :=
  ⟨Log_WARNING Sprintf l fmt args, Log_INFO Sprintf l fmt args, Log_DEBUG Sprintf l fmt args,
   fun hS => ⟨hS _ _ _ (by decide), hS _ _ _ (by decide), hS _ _ _ (by decide)⟩,
   by decide, by decide, by decide⟩

theorem C4_Log_named_level_uses_own_label_witness :
    (GetLogger DEBUG "LOGGER").Level ≥ WARNING ∧
    (GetLogger DEBUG "LOGGER").Level ≥ INFO ∧
    (GetLogger DEBUG "LOGGER").Level ≥ DEBUG ∧
    CopiesLiteral sprintfVerbs ∧
    (GetLogger DEBUG "LOGGER").Log sprintfVerbs WARNING "disk %v" ["full"]
      = .returned ((GetLogger DEBUG "LOGGER").withLine
          (sprintfVerbs ("WARNING " ++ "disk %v") ["full"])) ∧
    (GetLogger DEBUG "LOGGER").Log sprintfVerbs INFO "disk %v" ["full"]
      = .returned ((GetLogger DEBUG "LOGGER").withLine
          (sprintfVerbs ("INFO    " ++ "disk %v") ["full"])) ∧
    (GetLogger DEBUG "LOGGER").Log sprintfVerbs DEBUG "disk %v" ["full"]
      = .returned ((GetLogger DEBUG "LOGGER").withLine
          (sprintfVerbs ("DEBUG   " ++ "disk %v") ["full"])) ∧
    (sprintfVerbs ("WARNING " ++ "disk %v") ["full"]
        = "WARNING " ++ sprintfVerbs "disk %v" ["full"] ∧
      sprintfVerbs ("INFO    " ++ "disk %v") ["full"]
        = "INFO    " ++ sprintfVerbs "disk %v" ["full"] ∧
      sprintfVerbs ("DEBUG   " ++ "disk %v") ["full"]
        = "DEBUG   " ++ sprintfVerbs "disk %v" ["full"]) :=
  have h := C4_Log_named_level_uses_own_label sprintfVerbs
    (GetLogger DEBUG "LOGGER") "disk %v" ["full"]
  ⟨by decide, by decide, by decide, sprintfVerbs_copiesLiteral,
    h.1 (by decide), h.2.1 (by decide), h.2.2.1 (by decide),
    h.2.2.2.1 sprintfVerbs_copiesLiteral⟩

/-- C5: on the logger `GetLogger(INFO, p)`, for any `p`: logging at INFO and at
WARNING each hand one line to the sink, logging at ERROR hands one line,
logging at DEBUG hands none; and the four calls of the test leave exactly the
three lines of INFO, WARNING and ERROR, in that order. -/
theorem C5_logger_at_INFO {α : Type} (Sprintf : String → List α → String)
    (p fmt : String) (args : List α) :
    (GetLogger INFO p).Log Sprintf INFO fmt args
      = .returned ((GetLogger INFO p).withLine (Sprintf ("INFO    " ++ fmt) args)) ∧
    (GetLogger INFO p).Info Sprintf fmt args
      = .returned ((GetLogger INFO p).withLine (Sprintf ("INFO    " ++ fmt) args)) ∧
    (GetLogger INFO p).Log Sprintf WARNING fmt args
      = .returned ((GetLogger INFO p).withLine (Sprintf ("WARNING " ++ fmt) args)) ∧
    (GetLogger INFO p).Warning Sprintf fmt args
      = .returned ((GetLogger INFO p).withLine (Sprintf ("WARNING " ++ fmt) args)) ∧
    (GetLogger INFO p).Log Sprintf ERROR fmt args
      = .returned ((GetLogger INFO p).withLine (Sprintf ("ERROR   " ++ fmt) args)) ∧
    (GetLogger INFO p).Error Sprintf fmt args
      = .returned ((GetLogger INFO p).withLine (Sprintf ("ERROR   " ++ fmt) args)) ∧
    (GetLogger INFO p).Log Sprintf DEBUG fmt args = .returned (GetLogger INFO p) ∧
    (GetLogger INFO p).Debug Sprintf fmt args = .returned (GetLogger INFO p) ∧
    TestLogger Sprintf
      = .returned ((((GetLogger INFO "LOGGER").withLine (Sprintf "INFO    info" [])).withLine
          (Sprintf "WARNING warning" [])).withLine (Sprintf "ERROR   error" [])) := by
  have hI : ∀ l : Logger, l.Level = INFO → l.Level ≥ INFO := fun l h => by rw [h]
  have hW : ∀ l : Logger, l.Level = INFO → l.Level ≥ WARNING := fun l h => by
    rw [h]; decide
  have hD : ∀ l : Logger, l.Level = INFO → l.Level < DEBUG := fun l h => by
    rw [h]; decide
  have hL : (GetLogger INFO p).Level = INFO := rfl
  refine ⟨Log_INFO _ _ _ _ (hI _ hL), Log_INFO _ _ _ _ (hI _ hL),
    Log_WARNING _ _ _ _ (hW _ hL), Log_WARNING _ _ _ _ (hW _ hL),
    Log_of_neg _ _ _ _ _ (by decide), Log_of_neg _ _ _ _ _ (by decide),
    Log_of_lt _ _ _ _ _ (by decide) (hD _ hL), Log_of_lt _ _ _ _ _ (by decide) (hD _ hL), ?_⟩
  unfold TestLogger
  simp only []
  rw [Log_INFO Sprintf _ _ _ (hI _ rfl), Outcome.andThen,
    Log_WARNING Sprintf _ _ _ (hW _ rfl), Outcome.andThen,
    Log_of_neg Sprintf _ ERROR _ _ (by decide), Outcome.andThen,
    Log_of_lt Sprintf _ DEBUG _ _ (by decide) (hD _ rfl)]
  rfl

/-- C6: `GetLogger(level, p)` is total; the logger it returns has `Level = level`
and its system logger holds, with the standard flags and nothing written yet,
the prefix `p` with one space appended when `p` is non-empty and does not end
in a space, and `p` itself otherwise: "LOGGER" gives "LOGGER ", "LOGGER " stays
"LOGGER ", "" stays "". -/
theorem C6_GetLogger_level_and_normalised_pfx (level : LogLevel) (p : String) :
    (GetLogger level p).Level = level ∧
    (GetLogger level p).Logger.pfx
      = (if p ≠ "" ∧ lastChar p ≠ some ' ' then p ++ " " else p) ∧
    (GetLogger level p).Logger.flag = log.LstdFlags ∧
    (GetLogger level p).Logger.lines = [] ∧
    (GetLogger level "LOGGER").Logger.pfx = "LOGGER " ∧
    (GetLogger level "LOGGER ").Logger.pfx = "LOGGER " ∧
    (GetLogger level "").Logger.pfx = "" :=
  ⟨rfl, GetLogger_pfx level p, rfl, rfl, rfl, rfl, rfl⟩

/-- C7 (as stated, refuted): the prefix "a  " is stored unchanged; it is
non-empty and ends with two spaces, not exactly one. -/
theorem C7_two_trailing_spaces_kept :
    (GetLogger INFO "a  ").Logger.pfx = "a  " ∧
    (GetLogger INFO "a  ").Logger.pfx ≠ "" ∧
    beforeLastChar (GetLogger INFO "a  ").Logger.pfx = some ' ' ∧
    ¬ EndsWithOneSpace (GetLogger INFO "a  ").Logger.pfx := by
  have h : beforeLastChar (GetLogger INFO "a  ").Logger.pfx = some ' ' := by decide
  exact ⟨by decide, by decide, h, fun hone => hone.2 h⟩

/-- C7 (amended): for every input prefix, the stored prefix, if non-empty, ends
with a space; and it ends with exactly one space whenever the input prefix
does not itself end with two spaces. -/
theorem C7_stored_pfx_ends_with_space (level : LogLevel) (p : String) :
    ((GetLogger level p).Logger.pfx ≠ "" →
      lastChar (GetLogger level p).Logger.pfx = some ' ') ∧
    (¬ (lastChar p = some ' ' ∧ beforeLastChar p = some ' ') →
      (GetLogger level p).Logger.pfx ≠ "" →
      EndsWithOneSpace (GetLogger level p).Logger.pfx) := by
  rw [GetLogger_pfx]
  split_ifs with h
  · refine ⟨fun _ => lastChar_append_space p, fun _ _ => ⟨lastChar_append_space p, ?_⟩⟩
    rw [beforeLastChar_append_space]
    exact h.2
  · refine ⟨fun hne => ?_, fun h2 hne => ?_⟩
    · by_contra hl
      exact h ⟨hne, hl⟩
    · have hl : lastChar p = some ' ' := by
        by_contra hl
        exact h ⟨hne, hl⟩
      exact ⟨hl, fun hb => h2 ⟨hl, hb⟩⟩

theorem C7_stored_pfx_ends_with_space_witness :
    ((GetLogger INFO "LOGGER").Logger.pfx ≠ "" ∧
      lastChar (GetLogger INFO "LOGGER").Logger.pfx = some ' ') ∧
    (¬ (lastChar "LOGGER" = some ' ' ∧ beforeLastChar "LOGGER" = some ' ') ∧
      EndsWithOneSpace (GetLogger INFO "LOGGER").Logger.pfx) :=
  ⟨⟨by decide, (C7_stored_pfx_ends_with_space INFO "LOGGER").1 (by decide)⟩,
   ⟨by decide, (C7_stored_pfx_ends_with_space INFO "LOGGER").2 (by decide) (by decide)⟩⟩

/-- C8: `SetLevel(L)` makes the threshold `L` whatever it was, leaves the system
logger (prefix, flags and the lines written) as it was, and governs the next
call: on a logger made at WARNING, `Debug` hands nothing to the sink, and
after `SetLevel(DEBUG)` the same `Debug` hands exactly one line. -/
theorem C8_SetLevel_frame_and_effect {α : Type} (Sprintf : String → List α → String)
    (l : Logger) (L : LogLevel) (p fmt : String) (args : List α) :
    (l.SetLevel L).Level = L ∧
    (l.SetLevel L).Logger = l.Logger ∧
    (GetLogger WARNING p).Debug Sprintf fmt args = .returned (GetLogger WARNING p) ∧
    ((GetLogger WARNING p).SetLevel DEBUG).Debug Sprintf fmt args
      = .returned (((GetLogger WARNING p).SetLevel DEBUG).withLine
          (Sprintf ("DEBUG   " ++ fmt) args)) ∧
    (((GetLogger WARNING p).SetLevel DEBUG).withLine
          (Sprintf ("DEBUG   " ++ fmt) args)).Logger.lines
      = (GetLogger WARNING p).Logger.lines ++ [Sprintf ("DEBUG   " ++ fmt) args] :=
  ⟨rfl, rfl,
    Log_of_lt Sprintf (GetLogger WARNING p) DEBUG fmt args (by decide)
      (show WARNING < DEBUG by decide),
    Log_DEBUG Sprintf ((GetLogger WARNING p).SetLevel DEBUG) fmt args
      (show DEBUG ≥ DEBUG from le_refl _),
    rfl⟩

/-- C9: for every logger (so every threshold), format and arguments, `Error`
returns having handed one line to the sink, and `Fatal` hands that same one
line and then ends the process with exit status 1: it does not return and
does not panic.  The line is the formatting of "ERROR   " followed by the
format, which is the label "ERROR   " followed by the formatted message when
the formatter copies literal text. -/
theorem C9_Fatal_emits_as_Error_then_exits_1 {α : Type}
    (Sprintf : String → List α → String)
    (l : Logger) (fmt : String) (args : List α) :
    l.Error Sprintf fmt args
      = .returned (l.withLine (Sprintf ("ERROR   " ++ fmt) args)) ∧
    l.Fatal Sprintf fmt args
      = .exited 1 (l.withLine (Sprintf ("ERROR   " ++ fmt) args)) ∧
    (l.withLine (Sprintf ("ERROR   " ++ fmt) args)).Logger.lines
      = l.Logger.lines ++ [Sprintf ("ERROR   " ++ fmt) args] ∧
    (CopiesLiteral Sprintf →
      Sprintf ("ERROR   " ++ fmt) args = "ERROR   " ++ Sprintf fmt args) := by
  refine ⟨Log_of_neg Sprintf l ERROR fmt args (by decide), ?_, rfl,
    fun hS => hS _ _ _ (by decide)⟩
  rw [Logger.Fatal, Log_of_neg Sprintf l ERROR fmt args (by decide)]
  rfl

theorem C9_Fatal_emits_as_Error_then_exits_1_witness :
    CopiesLiteral sprintfVerbs ∧
    (GetLogger WARNING "LOGGER").Fatal sprintfVerbs "print and %v!" ["die"]
      = .exited 1 ((GetLogger WARNING "LOGGER").withLine
          (sprintfVerbs ("ERROR   " ++ "print and %v!") ["die"])) ∧
    sprintfVerbs ("ERROR   " ++ "print and %v!") ["die"]
      = "ERROR   " ++ sprintfVerbs "print and %v!" ["die"] :=
  have h := C9_Fatal_emits_as_Error_then_exits_1 sprintfVerbs
    (GetLogger WARNING "LOGGER") "print and %v!" ["die"]
  ⟨sprintfVerbs_copiesLiteral, h.2.1, h.2.2.2 sprintfVerbs_copiesLiteral⟩

/-- C10 (as stated, refuted): a logger at WARNING has `Level <= DEBUG` and
`Level <= INFO`, yet `Debug` and `Info` return on it with nothing handed to the
sink; a logger at ERROR has `Level <= WARNING`, yet `Warning` returns on it with
nothing handed to the sink. -/
theorem C10_wrappers_do_not_log_below_their_level :
    ((GetLogger WARNING "LOGGER").Level ≤ DEBUG ∧
      (GetLogger WARNING "LOGGER").Debug sprintfVerbs "level %v" ["0"]
        = .returned (GetLogger WARNING "LOGGER") ∧
      ¬ Logs (GetLogger WARNING "LOGGER")
        ((GetLogger WARNING "LOGGER").Debug sprintfVerbs "level %v" ["0"])) ∧
    ((GetLogger WARNING "LOGGER").Level ≤ INFO ∧
      (GetLogger WARNING "LOGGER").Info sprintfVerbs "level %v" ["0"]
        = .returned (GetLogger WARNING "LOGGER") ∧
      ¬ Logs (GetLogger WARNING "LOGGER")
        ((GetLogger WARNING "LOGGER").Info sprintfVerbs "level %v" ["0"])) ∧
    ((GetLogger ERROR "LOGGER").Level ≤ WARNING ∧
      (GetLogger ERROR "LOGGER").Warning sprintfVerbs "level %v" ["-1"]
        = .returned (GetLogger ERROR "LOGGER") ∧
      ¬ Logs (GetLogger ERROR "LOGGER")
        ((GetLogger ERROR "LOGGER").Warning sprintfVerbs "level %v" ["-1"])) ∧
    (GetLogger WARNING "LOGGER").Logger.lines = [] ∧
    (GetLogger ERROR "LOGGER").Logger.lines = [] := by
  refine ⟨⟨by decide, by rfl, ?_⟩, ⟨by decide, by rfl, ?_⟩, ⟨by decide, by rfl, ?_⟩, rfl, rfl⟩
  · rw [Logger.Debug, Log_logs_iff_of_le_DEBUG _ _ _ _ _ (by decide) (by decide)]
    decide
  · rw [Logger.Info, Log_logs_iff_of_le_DEBUG _ _ _ _ _ (by decide) (by decide)]
    decide
  · rw [Logger.Warning, Log_logs_iff_of_le_DEBUG _ _ _ _ _ (by decide) (by decide)]
    decide

/-- C10 (amended): for every logger, format and arguments, `Debug` logs the
message when the logger's Level is DEBUG or higher (`Level >= DEBUG`): it returns
having handed the sink exactly one line, the formatting of "DEBUG   " followed
by the format with the arguments; and when the Level is below DEBUG it returns
with the logger unchanged, nothing handed to the sink.  Likewise `Info` with
INFO and "INFO    ", and `Warning` with WARNING and "WARNING ".  The line is
the label followed by the formatted message when the formatter copies literal
text. -/
theorem C10_wrappers_log_exactly_at_or_above_their_level {α : Type}
    (Sprintf : String → List α → String)
    (l : Logger) (fmt : String) (args : List α) :
    (l.Level ≥ DEBUG →
      l.Debug Sprintf fmt args
        = .returned (l.withLine (Sprintf ("DEBUG   " ++ fmt) args))) ∧
    (l.Level < DEBUG → l.Debug Sprintf fmt args = .returned l) ∧
    (l.Level ≥ INFO →
      l.Info Sprintf fmt args
        = .returned (l.withLine (Sprintf ("INFO    " ++ fmt) args))) ∧
    (l.Level < INFO → l.Info Sprintf fmt args = .returned l) ∧
    (l.Level ≥ WARNING →
      l.Warning Sprintf fmt args
        = .returned (l.withLine (Sprintf ("WARNING " ++ fmt) args))) ∧
    (l.Level < WARNING → l.Warning Sprintf fmt args = .returned l) ∧
    (∀ line : String, (l.withLine line).Logger.lines = l.Logger.lines ++ [line]) ∧
    (CopiesLiteral Sprintf →
      Sprintf ("DEBUG   " ++ fmt) args = "DEBUG   " ++ Sprintf fmt args ∧
      Sprintf ("INFO    " ++ fmt) args = "INFO    " ++ Sprintf fmt args ∧
      Sprintf ("WARNING " ++ fmt) args = "WARNING " ++ Sprintf fmt args) :=
  ⟨Log_DEBUG Sprintf l fmt args,
   Log_of_lt Sprintf l DEBUG fmt args (by decide),
   Log_INFO Sprintf l fmt args,
   Log_of_lt Sprintf l INFO fmt args (by decide),
   Log_WARNING Sprintf l fmt args,
   Log_of_lt Sprintf l WARNING fmt args (by decide),
   fun _ => rfl,
   fun hS => ⟨hS _ _ _ (by decide), hS _ _ _ (by decide), hS _ _ _ (by decide)⟩⟩

theorem C10_wrappers_log_exactly_at_or_above_their_level_witness :
    (GetLogger DEBUG "LOGGER").Level ≥ DEBUG ∧
    (GetLogger DEBUG "LOGGER").Level ≥ INFO ∧
    (GetLogger DEBUG "LOGGER").Level ≥ WARNING ∧
    (GetLogger ERROR "LOGGER").Level < DEBUG ∧
    (GetLogger ERROR "LOGGER").Level < INFO ∧
    (GetLogger ERROR "LOGGER").Level < WARNING ∧
    CopiesLiteral sprintfVerbs ∧
    (GetLogger DEBUG "LOGGER").Debug sprintfVerbs "level %v" ["2"]
      = .returned ((GetLogger DEBUG "LOGGER").withLine
          (sprintfVerbs ("DEBUG   " ++ "level %v") ["2"])) ∧
    (GetLogger DEBUG "LOGGER").Info sprintfVerbs "level %v" ["2"]
      = .returned ((GetLogger DEBUG "LOGGER").withLine
          (sprintfVerbs ("INFO    " ++ "level %v") ["2"])) ∧
    (GetLogger DEBUG "LOGGER").Warning sprintfVerbs "level %v" ["2"]
      = .returned ((GetLogger DEBUG "LOGGER").withLine
          (sprintfVerbs ("WARNING " ++ "level %v") ["2"])) ∧
    (GetLogger ERROR "LOGGER").Debug sprintfVerbs "level %v" ["-1"]
      = .returned (GetLogger ERROR "LOGGER") ∧
    (GetLogger ERROR "LOGGER").Info sprintfVerbs "level %v" ["-1"]
      = .returned (GetLogger ERROR "LOGGER") ∧
    (GetLogger ERROR "LOGGER").Warning sprintfVerbs "level %v" ["-1"]
      = .returned (GetLogger ERROR "LOGGER") ∧
    (sprintfVerbs ("DEBUG   " ++ "level %v") ["2"]
        = "DEBUG   " ++ sprintfVerbs "level %v" ["2"] ∧
      sprintfVerbs ("INFO    " ++ "level %v") ["2"]
        = "INFO    " ++ sprintfVerbs "level %v" ["2"] ∧
      sprintfVerbs ("WARNING " ++ "level %v") ["2"]
        = "WARNING " ++ sprintfVerbs "level %v" ["2"]) :=
  have hi := C10_wrappers_log_exactly_at_or_above_their_level sprintfVerbs
    (GetLogger DEBUG "LOGGER") "level %v" ["2"]
  have lo := C10_wrappers_log_exactly_at_or_above_their_level sprintfVerbs
    (GetLogger ERROR "LOGGER") "level %v" ["-1"]
  ⟨by decide, by decide, by decide, by decide, by decide, by decide,
    sprintfVerbs_copiesLiteral,
    hi.1 (by decide), hi.2.2.1 (by decide), hi.2.2.2.2.1 (by decide),
    lo.2.1 (by decide), lo.2.2.2.1 (by decide), lo.2.2.2.2.2.1 (by decide),
    hi.2.2.2.2.2.2.2 sprintfVerbs_copiesLiteral⟩

end logger
